import Mathlib

/-
Verification development for the 3csim scenario scripts.

The Python sources under scripts/scenario_files are shallowly embedded here:

* float arithmetic on world coordinates is modelled by exact rationals
  (for the per-tick state machines) and by real numbers (for the intercept
  velocity solver, whose speed computation takes a square root);
* each scenario class becomes a structure holding exactly the attribute
  fields its tick method reads or writes, and its tick method becomes a
  pure function from the state and the per-tick observation (everything
  the method reads from the simulator: ego location, ego velocity or
  speed, owned-actor poses, the collision flag set by the sensor
  callback) to the successor state and a per-tick result;
* the integer return value of tick, together with the outcome message the
  method prints on the same call, is modelled by the type Out below;
* Python float division raising ZeroDivisionError is modelled by Option:
  a division whose divisor is zero yields none.
-/

namespace CSim

/-- Result of a single tick call: the returned int together with the
outcome message printed on the same call.  The function Out.code recovers
the int actually returned: 0 for running, 1 for the three others.  The
done case is a return 1 that the source prints no pass or fail message
for. -/
inductive Out where
  | running
  | passed
  | failed
  | done

deriving instance DecidableEq, Repr for Out

/-- The int value tick actually returns in the source: 1 exactly on a
completing tick. -/
def Out.code : Out → ℕ
  | .running => 0
  | _ => 1

/-- An observable command sent to the simulator; destroy emits one
DestroyActor command per entry of the actor list. -/
inductive Cmd where
  | destroyActor (id : ℕ)

deriving instance DecidableEq, Repr for Cmd

/-- A trigger area: the list of two corner points the scenario classes
keep in trigger_points and trigger_area. -/
structure TriggerPoints where
  a : ℚ × ℚ
  b : ℚ × ℚ

deriving instance DecidableEq, Repr for TriggerPoints

/-- checks.is_inside_bounding_box: the chained comparison
min ≤ x ≤ max on both ground axes. -/
def is_inside_bounding_box (vehicle_location : ℚ × ℚ) (bbox_min bbox_max : ℚ × ℚ) : Bool :=
  decide (min bbox_min.1 bbox_max.1 ≤ vehicle_location.1) &&
  decide (vehicle_location.1 ≤ max bbox_min.1 bbox_max.1) &&
  decide (min bbox_min.2 bbox_max.2 ≤ vehicle_location.2) &&
  decide (vehicle_location.2 ≤ max bbox_min.2 bbox_max.2)

/-- checks.update_trigger_points: translate both corners of the given
two-point list by actor_speed, along x or y according to add_to_x, added
or subtracted according to add_speed. -/
def update_trigger_points (trigger_points : TriggerPoints) (actor_speed : ℚ)
    (add_speed : Bool) (add_to_x : Bool) : TriggerPoints :=
  if add_speed then
    if add_to_x then
      ⟨(trigger_points.a.1 + actor_speed, trigger_points.a.2),
       (trigger_points.b.1 + actor_speed, trigger_points.b.2)⟩
    else
      ⟨(trigger_points.a.1, trigger_points.a.2 + actor_speed),
       (trigger_points.b.1, trigger_points.b.2 + actor_speed)⟩
  else
    if add_to_x then
      ⟨(trigger_points.a.1 - actor_speed, trigger_points.a.2),
       (trigger_points.b.1 - actor_speed, trigger_points.b.2)⟩
    else
      ⟨(trigger_points.a.1, trigger_points.a.2 - actor_speed),
       (trigger_points.b.1, trigger_points.b.2 - actor_speed)⟩

/-- State of spawn_static_car_crash_1.StaticCarCrash_1: the attributes its
tick method reads or writes.  The actor list holds the eleven actors
spawned by the constructor, identified by spawn order. -/
structure StaticCarCrash_1 where
  triggered : Bool
  trigger_points : TriggerPoints
  trigger_area : TriggerPoints
  timer : ℕ
  actor_list : List ℕ

deriving instance DecidableEq, Repr for StaticCarCrash_1

/-- StaticCarCrash_1.__init__ with its default trigger points: idle state,
trigger_area aliased to trigger_points, timer 400, eleven spawned actors. -/
def StaticCarCrash_1.mkInit (trigger_points : Option TriggerPoints) : StaticCarCrash_1 :=
  let tp := trigger_points.getD ⟨(220.8, -86.5), (238.3, 1.6)⟩
  { triggered := false
    trigger_points := tp
    trigger_area := tp
    timer := 400
    actor_list := List.range 11 }

/-- StaticCarCrash_1.tick.  The observation is the ego transform location
read at the head of the call. -/
def StaticCarCrash_1.tick (s : StaticCarCrash_1) (ego_location : ℚ × ℚ) :
    StaticCarCrash_1 × Out :=
  if s.triggered then
    if is_inside_bounding_box ego_location s.trigger_area.a s.trigger_area.b then
      if s.timer > 0 then ({ s with timer := s.timer - 1 }, .running)
      else (s, .failed)
    else (s, .passed)
  else if is_inside_bounding_box ego_location s.trigger_area.a s.trigger_area.b then
    ({ s with triggered := true }, .running)
  else (s, .running)

/-- StaticCarCrash_1.destroy: one DestroyActor command per actor-list
entry; the method does not change the state, so a second call emits the
same batch again. -/
def StaticCarCrash_1.destroy (s : StaticCarCrash_1) : List Cmd :=
  s.actor_list.map Cmd.destroyActor

/-- The state of StaticCarCrash_1 before tick number n of a run fed by the
observation stream obs. -/
def StaticCarCrash_1.run (s : StaticCarCrash_1) (obs : ℕ → ℚ × ℚ) : ℕ → StaticCarCrash_1
  | 0 => s
  | n + 1 => ((StaticCarCrash_1.run s obs n).tick (obs n)).1

/-- The result of tick number n of a run of StaticCarCrash_1. -/
def StaticCarCrash_1.out (s : StaticCarCrash_1) (obs : ℕ → ℚ × ℚ) (n : ℕ) : Out :=
  ((s.run obs n).tick (obs n)).2

/-- Per-tick observation of spawn_squirrel_running_across: the squirrel
actor transform location, the ego velocity x component, the ego transform
location, and the ego speed get_vehicle_speed returns (the simulator-side
Euclidean norm of the ego velocity, hence nonnegative; the tick body
consumes only this scalar). -/
structure SquirrelObs where
  squirrel_location : ℚ × ℚ
  ego_velocity_x : ℚ
  ego_location : ℚ × ℚ
  ego_speed : ℚ

/-- State of spawn_squirrel_running_across.SquirrelRunningAcrossTheRoad.
world_fixed_delta_seconds is the fixed simulation step read at
construction (0.05 in the repository main loops). -/
structure SquirrelRunningAcrossTheRoad where
  triggered : Bool
  trigger_points : TriggerPoints
  trigger_area : TriggerPoints
  checkpoint : Bool
  squirrel_x_position : ℚ
  timer : ℕ
  collision_detected : Bool
  world_fixed_delta_seconds : ℚ
  actor_list : List ℕ

deriving instance DecidableEq, Repr for SquirrelRunningAcrossTheRoad

/-- SquirrelRunningAcrossTheRoad.__init__ with its default trigger points:
one spawned actor, squirrel x position 122.60, timer 30. -/
def SquirrelRunningAcrossTheRoad.mkInit (trigger_points : Option TriggerPoints)
    (world_fixed_delta_seconds : ℚ) : SquirrelRunningAcrossTheRoad :=
  let tp := trigger_points.getD ⟨(103.1, 131.4), (105.3, 135)⟩
  { triggered := false
    trigger_points := tp
    trigger_area := tp
    checkpoint := false
    squirrel_x_position := 122.6
    timer := 30
    collision_detected := false
    world_fixed_delta_seconds := world_fixed_delta_seconds
    actor_list := [0] }

/-- SquirrelRunningAcrossTheRoad.tick.  In the pursuit branch the method
moves the squirrel by set_transform; the squirrel pose it reads next tick
is part of the observation, so those writes need no state field.  In the
crossing branch the completion test reads the already decremented y, so
the comparison is on the observed y minus 1.5 times the fixed step. -/
def SquirrelRunningAcrossTheRoad.tick (s : SquirrelRunningAcrossTheRoad)
    (o : SquirrelObs) : SquirrelRunningAcrossTheRoad × Out :=
  if s.triggered then
    if s.collision_detected = false then
      if |o.squirrel_location.1 - s.squirrel_x_position| > 0.01 then
        ({ s with collision_detected := true }, .running)
      else if s.checkpoint = false then
        if o.ego_velocity_x > 0 then
          if |o.squirrel_location.2 - o.ego_location.2| < 0.8 then
            ({ s with checkpoint := true }, .running)
          else (s, .running)
        else (s, .running)
      else
        if o.squirrel_location.2 - 1.5 * s.world_fixed_delta_seconds < 127.4 then
          (s, .passed)
        else (s, .running)
    else
      if s.timer > 0 then ({ s with timer := s.timer - 1 }, .running)
      else (s, .done)
  else if is_inside_bounding_box o.ego_location s.trigger_area.a s.trigger_area.b then
    ({ s with triggered := true }, .running)
  else
    ({ s with trigger_area :=
        update_trigger_points s.trigger_points o.ego_speed false true }, .running)

/-- SquirrelRunningAcrossTheRoad.destroy: the DestroyActor batch over the
actor list; the state is not changed. -/
def SquirrelRunningAcrossTheRoad.destroy (s : SquirrelRunningAcrossTheRoad) : List Cmd :=
  s.actor_list.map Cmd.destroyActor

/-- The state of SquirrelRunningAcrossTheRoad before tick number n. -/
def SquirrelRunningAcrossTheRoad.run (s : SquirrelRunningAcrossTheRoad)
    (obs : ℕ → SquirrelObs) : ℕ → SquirrelRunningAcrossTheRoad
  | 0 => s
  | n + 1 => ((SquirrelRunningAcrossTheRoad.run s obs n).tick (obs n)).1

/-- The result of tick number n of a run of SquirrelRunningAcrossTheRoad. -/
def SquirrelRunningAcrossTheRoad.out (s : SquirrelRunningAcrossTheRoad)
    (obs : ℕ → SquirrelObs) (n : ℕ) : Out :=
  ((s.run obs n).tick (obs n)).2

/-- Per-tick observation of spawn_ball_boy: the pedestrian actor location,
the ego location and the ego speed. -/
structure BoyObs where
  pedestrian_location : ℚ × ℚ
  ego_location : ℚ × ℚ
  ego_speed : ℚ

/-- State of spawn_ball_boy.BoyFootball: five spawned actors, one
checkpoint flag for the run back. -/
structure BoyFootball where
  triggered : Bool
  trigger_points : TriggerPoints
  trigger_area : TriggerPoints
  checkpoint : Bool
  actor_list : List ℕ

deriving instance DecidableEq, Repr for BoyFootball

/-- BoyFootball.__init__ with its default trigger points. -/
def BoyFootball.mkInit (trigger_points : Option TriggerPoints) : BoyFootball :=
  let tp := trigger_points.getD ⟨(61.5, 133), (62, 136)⟩
  { triggered := false
    trigger_points := tp
    trigger_area := tp
    checkpoint := false
    actor_list := List.range 5 }

/-- BoyFootball.tick.  The walker-control commands the branches apply
(adjust_pedestrian_velocity while y is above 136, the fixed crossing and
return controls below) change no state field; the pedestrian pose read
next tick is part of the observation. -/
def BoyFootball.tick (s : BoyFootball) (o : BoyObs) : BoyFootball × Out :=
  if s.triggered then
    if o.pedestrian_location.1 = 0 ∧ o.pedestrian_location.2 = 0 then
      (s, .failed)
    else if s.checkpoint = false then
      if o.pedestrian_location.2 > 136 then (s, .running)
      else if o.pedestrian_location.2 < 127 then
        ({ s with checkpoint := true }, .running)
      else (s, .running)
    else
      if o.pedestrian_location.2 > 140 then (s, .passed)
      else (s, .running)
  else if is_inside_bounding_box o.ego_location s.trigger_area.a s.trigger_area.b then
    ({ s with triggered := true }, .running)
  else
    ({ s with trigger_area :=
        update_trigger_points s.trigger_points o.ego_speed false true }, .running)

/-- The state of BoyFootball before tick number n. -/
def BoyFootball.run (s : BoyFootball) (obs : ℕ → BoyObs) : ℕ → BoyFootball
  | 0 => s
  | n + 1 => ((BoyFootball.run s obs n).tick (obs n)).1

/-- Per-tick observation of spawn_parking_HGV: the collision flag the
sensor callback may have set by the time tick reads it, the HGV actor
location y, the ego location and the ego speed. -/
structure ParkingObs where
  collision_detected : Bool
  hgv_location_y : ℚ
  ego_location : ℚ × ℚ
  ego_speed : ℚ

/-- State of spawn_parking_HGV.ParkingHGV: two ordered checkpoints
(backwards, forwards), timer 400, two spawned actors (HGV and its
collision sensor). -/
structure ParkingHGV where
  triggered : Bool
  trigger_points : TriggerPoints
  trigger_area : TriggerPoints
  timer : ℕ
  checkpoint0 : Bool
  checkpoint1 : Bool
  actor_list : List ℕ

deriving instance DecidableEq, Repr for ParkingHGV

/-- ParkingHGV.__init__ with its default trigger points. -/
def ParkingHGV.mkInit (trigger_points : Option TriggerPoints) : ParkingHGV :=
  let tp := trigger_points.getD ⟨(-31.8, 133.7), (-71, 140.5)⟩
  { triggered := false
    trigger_points := tp
    trigger_area := tp
    timer := 400
    checkpoint0 := false
    checkpoint1 := false
    actor_list := List.range 2 }

/-- ParkingHGV.tick.  The vehicle-control and light commands change no
state field tracked here; the checkpoint maneuver code runs before the
presence check, so its flag updates survive into the returned state even
on a completing tick. -/
def ParkingHGV.tick (s : ParkingHGV) (o : ParkingObs) : ParkingHGV × Out :=
  if s.triggered then
    if o.collision_detected then (s, .failed)
    else
      let s1 :=
        if s.checkpoint0 = false then
          if o.hgv_location_y < 143.5 then s
          else { s with checkpoint0 := true }
        else if s.checkpoint1 = false then
          if o.hgv_location_y > 142.6 then s
          else { s with checkpoint1 := true }
        else s
      if is_inside_bounding_box o.ego_location s.trigger_area.a s.trigger_area.b then
        if s.timer > 0 ∧ o.ego_speed > 0.1 then
          ({ s1 with timer := s1.timer - 1 }, .running)
        else (s1, .failed)
      else (s1, .passed)
  else if is_inside_bounding_box o.ego_location s.trigger_area.a s.trigger_area.b then
    ({ s with triggered := true }, .running)
  else (s, .running)

/-- ParkingHGV.destroy: stops the sensor and emits the DestroyActor batch
over the actor list; the state is not changed. -/
def ParkingHGV.destroy (s : ParkingHGV) : List Cmd :=
  s.actor_list.map Cmd.destroyActor

/-- The state of ParkingHGV before tick number n. -/
def ParkingHGV.run (s : ParkingHGV) (obs : ℕ → ParkingObs) : ℕ → ParkingHGV
  | 0 => s
  | n + 1 => ((ParkingHGV.run s obs n).tick (obs n)).1

/-- The result of tick number n of a run of ParkingHGV. -/
def ParkingHGV.out (s : ParkingHGV) (obs : ℕ → ParkingObs) (n : ℕ) : Out :=
  ((s.run obs n).tick (obs n)).2

/-- Per-tick observation of spawn_dangerous_excavator: the excavator top
rotation yaw, the ego location and the ego speed. -/
structure ExcavatorObs where
  yaw : ℚ
  ego_location : ℚ × ℚ
  ego_speed : ℚ

/-- State of spawn_dangerous_excavator.DangerousExcavator: timer 100, one
checkpoint flag for finishing the first swing, seven spawned actors. -/
structure DangerousExcavator where
  triggered : Bool
  trigger_points : TriggerPoints
  trigger_area : TriggerPoints
  timer : ℕ
  checkpoint : Bool
  actor_list : List ℕ

deriving instance DecidableEq, Repr for DangerousExcavator

/-- DangerousExcavator.__init__ with its default trigger points. -/
def DangerousExcavator.mkInit (trigger_points : Option TriggerPoints) : DangerousExcavator :=
  let tp := trigger_points.getD ⟨(-125.5, 131.3), (-127.5, 134.5)⟩
  { triggered := false
    trigger_points := tp
    trigger_area := tp
    timer := 100
    checkpoint := false
    actor_list := List.range 7 }

/-- DangerousExcavator.tick.  The set_transform commands that swing the
excavator top change no state field; the yaw read next tick is part of
the observation. -/
def DangerousExcavator.tick (s : DangerousExcavator) (o : ExcavatorObs) :
    DangerousExcavator × Out :=
  if s.triggered then
    if s.checkpoint = false then
      if o.yaw ≥ 50 then (s, .running)
      else ({ s with checkpoint := true }, .running)
    else if s.checkpoint = true ∧ o.yaw < 130 then (s, .running)
    else
      if s.timer > 0 then ({ s with timer := s.timer - 1 }, .running)
      else (s, .done)
  else if is_inside_bounding_box o.ego_location s.trigger_area.a s.trigger_area.b then
    ({ s with triggered := true }, .running)
  else
    ({ s with trigger_area :=
        update_trigger_points s.trigger_points o.ego_speed true true }, .running)

/-- The state of DangerousExcavator before tick number n. -/
def DangerousExcavator.run (s : DangerousExcavator) (obs : ℕ → ExcavatorObs) :
    ℕ → DangerousExcavator
  | 0 => s
  | n + 1 => ((DangerousExcavator.run s obs n).tick (obs n)).1

/-- The result of tick number n of a run of DangerousExcavator. -/
def DangerousExcavator.out (s : DangerousExcavator) (obs : ℕ → ExcavatorObs) (n : ℕ) : Out :=
  ((s.run obs n).tick (obs n)).2

/-- A 3D vector of the simulator, used for locations, velocities and
direction vectors in the intercept solver. -/
structure Vec3 where
  x : ℝ
  y : ℝ
  z : ℝ

/-- checks.get_vehicle_speed, parametrised by the velocity vector the
source reads from the vehicle: the Euclidean norm of the 3D velocity. -/
noncomputable def get_vehicle_speed (velocity : Vec3) : ℝ :=
  Real.sqrt (velocity.x ^ 2 + velocity.y ^ 2 + velocity.z ^ 2)

/-- checks.adjust_car_location, parametrised by the forward vector the
source reads from the transform: the location projected forward along the
heading by bumper_offset. -/
noncomputable def adjust_car_location (car_location forward_vector : Vec3)
    (bumper_offset : ℝ) : Vec3 :=
  { x := car_location.x + forward_vector.x * bumper_offset
    y := car_location.y + forward_vector.y * bumper_offset
    z := car_location.z + forward_vector.z * bumper_offset }

/-- checks.calculate_required_speed.  None models the ZeroDivisionError a
Python float division by zero raises: the final division has divisor
time_to_intersect, which is zero exactly when the offset along the
non-travel axis is zero (the division producing time_to_intersect itself
is safe, its divisor car_speed being at least 0.1 in that branch). -/
noncomputable def calculate_required_speed (car_location car_velocity
    pedestrian_location pedestrian_direction : Vec3) : Option ℝ :=
  let car_speed :=
    Real.sqrt (car_velocity.x ^ 2 + car_velocity.y ^ 2 + car_velocity.z ^ 2)
  if car_speed < 0.1 then some 0
  else if pedestrian_direction.x ≠ 0 then
    let distance_to_pedestrian_path := |car_location.y - pedestrian_location.y|
    let time_to_intersect := distance_to_pedestrian_path / car_speed
    let distance_to_intersect := |car_location.x - pedestrian_location.x|
    if time_to_intersect = 0 then none
    else some (distance_to_intersect / time_to_intersect)
  else
    let distance_to_pedestrian_path := |car_location.x - pedestrian_location.x|
    let time_to_intersect := distance_to_pedestrian_path / car_speed
    let distance_to_intersect := |car_location.y - pedestrian_location.y|
    if time_to_intersect = 0 then none
    else some (distance_to_intersect / time_to_intersect)

/-- checks.adjust_pedestrian_velocity, reduced to the scalar speed it
writes into the walker control it applies (the direction is left
unchanged by the source).  The forward vector of the ego transform is a
parameter; the bumper offset is the default 2.0 of adjust_car_location.
None propagates the ZeroDivisionError of the solver. -/
noncomputable def adjust_pedestrian_velocity (car_location forward_vector car_velocity
    pedestrian_location pedestrian_direction : Vec3) : Option ℝ :=
  (calculate_required_speed (adjust_car_location car_location forward_vector 2)
      car_velocity pedestrian_location pedestrian_direction).map
    fun required_speed => if required_speed < 0.1 then 0.1 else required_speed

/-- Observation stream used in several concrete counterexamples for the
static car crash scenario: the ego enters the default trigger area on the
first tick and is far outside it on every later tick. -/
def staticObs : ℕ → ℚ × ℚ :=
  fun n => if n = 0 then (230, -40) else (0, 0)

/-- Constant observation stream for the squirrel scenario: the ego sits
inside the default trigger area, stationary, the squirrel at its spawn
pose. -/
def squirrelObsIn : ℕ → SquirrelObs :=
  fun _ => { squirrel_location := (122.6, 138.4)
             ego_velocity_x := 0
             ego_location := (104, 133)
             ego_speed := 0 }

/-- One ball-boy observation: the ego far outside the default trigger
area approaching at speed 3, the pedestrian at its spawn pose. -/
def boyObsFast : BoyObs :=
  { pedestrian_location := (80, 143.4)
    ego_location := (0, 0)
    ego_speed := 3 }

/-- Constant observation stream for the static car crash scenario: the
ego inside the default trigger area on every tick. -/
def staticObsIn : ℕ → ℚ × ℚ :=
  fun _ => (230, -40)

/-- Constant observation stream for the excavator scenario: the top yaw
already past the final threshold, the ego outside the area. -/
def excavObsDone : ℕ → ExcavatorObs :=
  fun _ => { yaw := 135, ego_location := (0, 0), ego_speed := 0 }

/-- One parking-HGV observation: no collision, the HGV at its spawn y,
the ego stalled (speed 0) inside the default trigger area. -/
def parkingObsStall : ParkingObs :=
  { collision_detected := false
    hgv_location_y := 137.2
    ego_location := (-50, 137)
    ego_speed := 0 }

/-- Observation stream for the parking-HGV scenario: the ego drives
inside the trigger area at speed 5; the HGV is past the backwards
threshold from tick 1 on, so the first checkpoint flips on tick 1. -/
def parkingObsSeq : ℕ → ParkingObs :=
  fun n =>
    if n = 0 then
      { collision_detected := false
        hgv_location_y := 137.2
        ego_location := (-50, 137)
        ego_speed := 5 }
    else
      { collision_detected := false
        hgv_location_y := 150
        ego_location := (-50, 137)
        ego_speed := 5 }

/-- Claim C9, counterexample: on the freshly constructed squirrel
scenario, whose actor list is the single spawned squirrel, calling
destroy twice emits the DestroyActor command for that actor twice, while
a single call emits it once — the owned actor is not released exactly
once across the two calls. -/
theorem claim9_counterexample :
    (SquirrelRunningAcrossTheRoad.mkInit none (1 / 20)).actor_list = [0] ∧
    (((SquirrelRunningAcrossTheRoad.mkInit none (1 / 20)).destroy ++
        (SquirrelRunningAcrossTheRoad.mkInit none (1 / 20)).destroy).count
      (Cmd.destroyActor 0) = 2) ∧
    ((SquirrelRunningAcrossTheRoad.mkInit none (1 / 20)).destroy.count
      (Cmd.destroyActor 0) = 1) := by
  decide

/-- Claim C9, amended: destroy does not change the scenario state, so a
second call emits the identical DestroyActor batch again; the set of
actors released by two calls equals the set released by one call (no
actor outside the owned set is ever released), but each owned actor
receives one release command per call, twice in total, rather than
exactly once. -/
theorem claim9_destroy_set_stable :
    (∀ s : SquirrelRunningAcrossTheRoad,
      (s.destroy ++ s.destroy).toFinset = s.destroy.toFinset ∧
      ∀ c, (s.destroy ++ s.destroy).count c = 2 * s.destroy.count c) ∧
    (∀ s : ParkingHGV,
      (s.destroy ++ s.destroy).toFinset = s.destroy.toFinset ∧
      ∀ c, (s.destroy ++ s.destroy).count c = 2 * s.destroy.count c) := by
  constructor <;>
    exact fun s =>
      ⟨by simp [List.toFinset_append], fun c => by simp [List.count_append]; ring⟩

/-- Any tick taken while the static car crash scenario is idle returns 0:
both the triggering branch and the final branch of the source return 0. -/
lemma static_idle_tick_running (s : StaticCarCrash_1) (o : ℚ × ℚ)
    (h : s.triggered = false) : (s.tick o).2 = .running := by
  simp only [StaticCarCrash_1.tick, h]
  rw [if_neg (by decide)]
  split <;> rfl

/-- Any tick taken while the squirrel scenario is idle returns 0: both
the triggering branch and the area-update branch of the source return 0. -/
lemma squirrel_idle_tick_running (s : SquirrelRunningAcrossTheRoad) (o : SquirrelObs)
    (h : s.triggered = false) : (s.tick o).2 = .running := by
  simp only [SquirrelRunningAcrossTheRoad.tick, h]
  rw [if_neg (by decide)]
  split <;> rfl

/-- Claim C1, counterexample: the scenario classes store no completed
state, so a driver that keeps calling tick after the first return of 1
receives 1 again.  Concretely, the static car crash scenario triggers on
tick 0, then the ego leaves the area: ticks 1 and 2 both return 1 (both
with the pass outcome), refuting that 1 is returned exactly once over
every sequence of tick calls. -/
theorem claim1_counterexample :
    Out.code (StaticCarCrash_1.out (.mkInit none) staticObs 0) = 0 ∧
    Out.code (StaticCarCrash_1.out (.mkInit none) staticObs 1) = 1 ∧
    Out.code (StaticCarCrash_1.out (.mkInit none) staticObs 2) = 1 := by
  norm_num [StaticCarCrash_1.out, StaticCarCrash_1.run, StaticCarCrash_1.tick,
    StaticCarCrash_1.mkInit, is_inside_bounding_box, staticObs, Out.code]

/-- Claim C1, amended: provided the driver never calls tick again after
the first tick that returns 1 (the contract of the main loops, which
destroy the scenario at that point), tick returns 1 exactly once, on the
completing tick.  What the state machines themselves guarantee, proved
here for the two cited scenarios: every tick taken from the idle state
returns 0 — in particular the tick that transitions idle to triggered —
and a tick can only return a nonzero code when the scenario was already
triggered before the tick. -/
theorem claim1_trigger_tick_returns_zero :
    (∀ (s : StaticCarCrash_1) (o : ℚ × ℚ), s.triggered = false →
      (s.tick o).2 = .running) ∧
    (∀ (s : StaticCarCrash_1) (o : ℚ × ℚ), (s.tick o).2 ≠ .running →
      s.triggered = true) ∧
    (∀ (s : SquirrelRunningAcrossTheRoad) (o : SquirrelObs), s.triggered = false →
      (s.tick o).2 = .running) ∧
    (∀ (s : SquirrelRunningAcrossTheRoad) (o : SquirrelObs), (s.tick o).2 ≠ .running →
      s.triggered = true) := by
  refine ⟨static_idle_tick_running, fun s o h => ?_,
    squirrel_idle_tick_running, fun s o h => ?_⟩
  · cases htrig : s.triggered
    · exact absurd (static_idle_tick_running s o htrig) h
    · rfl
  · cases htrig : s.triggered
    · exact absurd (squirrel_idle_tick_running s o htrig) h
    · rfl

/-- Claim C1, witness: the triggering tick of the static car crash
scenario returns 0. -/
theorem claim1_witness :
    ((StaticCarCrash_1.mkInit none).tick (230, -40)).2 = .running :=
  claim1_trigger_tick_returns_zero.1 (StaticCarCrash_1.mkInit none) (230, -40) rfl

/-- One triggered tick of the squirrel scenario keeps triggered set and
leaves the trigger area untouched: every triggered branch of the source
returns without writing trigger_area or triggered. -/
lemma squirrel_tick_triggered_frozen (s : SquirrelRunningAcrossTheRoad) (o : SquirrelObs)
    (h : s.triggered = true) :
    (s.tick o).1.triggered = true ∧ (s.tick o).1.trigger_area = s.trigger_area := by
  simp only [SquirrelRunningAcrossTheRoad.tick, h]
  rw [if_pos trivial]
  split_ifs <;> exact ⟨by simp [h], rfl⟩

/-- One triggered tick of the ball-boy scenario keeps triggered set and
leaves the trigger area untouched. -/
lemma boy_tick_triggered_frozen (s : BoyFootball) (o : BoyObs)
    (h : s.triggered = true) :
    (s.tick o).1.triggered = true ∧ (s.tick o).1.trigger_area = s.trigger_area := by
  simp only [BoyFootball.tick, h]
  rw [if_pos trivial]
  split_ifs <;> exact ⟨by simp [h], rfl⟩

/-- Once a squirrel-scenario run is triggered it stays triggered with the
same trigger area at every later tick. -/
lemma squirrel_run_frozen (s : SquirrelRunningAcrossTheRoad) (obs : ℕ → SquirrelObs)
    (n m : ℕ) (hnm : n ≤ m) (h : (s.run obs n).triggered = true) :
    (s.run obs m).triggered = true ∧
      (s.run obs m).trigger_area = (s.run obs n).trigger_area := by
  induction m, hnm using Nat.le_induction with
  | base => exact ⟨h, rfl⟩
  | succ m _ ih =>
    have step := squirrel_tick_triggered_frozen (s.run obs m) (obs m) ih.1
    refine ⟨?_, ?_⟩
    · simpa only [SquirrelRunningAcrossTheRoad.run] using step.1
    · simp only [SquirrelRunningAcrossTheRoad.run]
      rw [step.2, ih.2]

/-- Once a ball-boy run is triggered it stays triggered with the same
trigger area at every later tick. -/
lemma boy_run_frozen (s : BoyFootball) (obs : ℕ → BoyObs)
    (n m : ℕ) (hnm : n ≤ m) (h : (s.run obs n).triggered = true) :
    (s.run obs m).triggered = true ∧
      (s.run obs m).trigger_area = (s.run obs n).trigger_area := by
  induction m, hnm using Nat.le_induction with
  | base => exact ⟨h, rfl⟩
  | succ m _ ih =>
    have step := boy_tick_triggered_frozen (s.run obs m) (obs m) ih.1
    refine ⟨?_, ?_⟩
    · simpa only [BoyFootball.run] using step.1
    · simp only [BoyFootball.run]
      rw [step.2, ih.2]

/-- Claim C2: for the squirrel and ball-boy scenarios, over every run,
once triggered is true it never reverts (so the false-to-true transition
happens at most once in any lifetime), and from the triggering tick on
the trigger area is never translated or otherwise modified again. -/
theorem claim2_trigger_once_area_frozen :
    (∀ (s : SquirrelRunningAcrossTheRoad) (obs : ℕ → SquirrelObs) (n m : ℕ), n ≤ m →
      (s.run obs n).triggered = true →
      ((s.run obs m).triggered = true ∧
        (s.run obs m).trigger_area = (s.run obs n).trigger_area)) ∧
    (∀ (s : BoyFootball) (obs : ℕ → BoyObs) (n m : ℕ), n ≤ m →
      (s.run obs n).triggered = true →
      ((s.run obs m).triggered = true ∧
        (s.run obs m).trigger_area = (s.run obs n).trigger_area)) :=
  ⟨squirrel_run_frozen, boy_run_frozen⟩

/-- Claim C2, witness: a squirrel run triggered on tick 0 is still
triggered two ticks later with an unchanged trigger area. -/
theorem claim2_witness :
    ((SquirrelRunningAcrossTheRoad.mkInit none (1 / 20)).run squirrelObsIn 3).triggered
        = true ∧
    ((SquirrelRunningAcrossTheRoad.mkInit none (1 / 20)).run squirrelObsIn 3).trigger_area
        = ((SquirrelRunningAcrossTheRoad.mkInit none (1 / 20)).run squirrelObsIn 1).trigger_area :=
  claim2_trigger_once_area_frozen.1 (SquirrelRunningAcrossTheRoad.mkInit none (1 / 20))
    squirrelObsIn 1 3 (by norm_num)
    (by norm_num [SquirrelRunningAcrossTheRoad.run, SquirrelRunningAcrossTheRoad.tick,
      SquirrelRunningAcrossTheRoad.mkInit, is_inside_bounding_box, squirrelObsIn])

/-- Claim C5, counterexample: on an idle non-triggering ball-boy tick
with ego speed 3, the next trigger area is the original points shifted by
the full 3 — not by 3 times the fixed tick duration 0.05 — and a second
identical tick leaves the area where it was, because the shift is always
applied to the original trigger_points, never accumulated: the distance
to the ego does not change by speed times tick duration per tick. -/
theorem claim5_counterexample :
    ((BoyFootball.mkInit none).tick boyObsFast).1.trigger_area
        = ⟨(58.5, 133), (59, 136)⟩ ∧
    ((BoyFootball.mkInit none).tick boyObsFast).1.trigger_area
        ≠ ⟨(61.5 - 3 * (1 / 20), 133), (62 - 3 * (1 / 20), 136)⟩ ∧
    (((BoyFootball.mkInit none).tick boyObsFast).1.tick boyObsFast).1.trigger_area
        = ((BoyFootball.mkInit none).tick boyObsFast).1.trigger_area := by
  norm_num [BoyFootball.tick, BoyFootball.mkInit, update_trigger_points,
    is_inside_bounding_box, boyObsFast, TriggerPoints.mk.injEq, Prod.ext_iff]

/-- Claim C5, amended: on every idle tick on which the ego is outside the
current trigger area, the trigger area used on the next tick is the
scenario's original trigger_points — not the current area — translated by
the ego's current speed itself, not by speed times the tick duration,
along the configured axis and sign (x, subtracted, for the ball-boy
scenario); hence the offset from the original points equals the current
speed and does not accumulate across idle ticks. -/
theorem claim5_idle_area_update (s : BoyFootball) (o : BoyObs)
    (h1 : s.triggered = false)
    (h2 : is_inside_bounding_box o.ego_location s.trigger_area.a s.trigger_area.b = false) :
    (s.tick o).1.trigger_area
        = update_trigger_points s.trigger_points o.ego_speed false true ∧
    update_trigger_points s.trigger_points o.ego_speed false true
        = ⟨(s.trigger_points.a.1 - o.ego_speed, s.trigger_points.a.2),
           (s.trigger_points.b.1 - o.ego_speed, s.trigger_points.b.2)⟩ := by
  constructor
  · simp only [BoyFootball.tick, h1]
    rw [if_neg (by decide), if_neg (by simp [h2])]
  · simp [update_trigger_points]

/-- Claim C5, witness: the amended update law evaluated on the freshly
constructed ball-boy scenario with the ego outside at speed 3. -/
theorem claim5_witness :
    ((BoyFootball.mkInit none).tick boyObsFast).1.trigger_area
        = update_trigger_points (BoyFootball.mkInit none).trigger_points
            boyObsFast.ego_speed false true ∧
    update_trigger_points (BoyFootball.mkInit none).trigger_points
        boyObsFast.ego_speed false true
        = ⟨((BoyFootball.mkInit none).trigger_points.a.1 - boyObsFast.ego_speed,
            (BoyFootball.mkInit none).trigger_points.a.2),
           ((BoyFootball.mkInit none).trigger_points.b.1 - boyObsFast.ego_speed,
            (BoyFootball.mkInit none).trigger_points.b.2)⟩ :=
  claim5_idle_area_update (BoyFootball.mkInit none) boyObsFast rfl
    (by norm_num [BoyFootball.mkInit, is_inside_bounding_box, boyObsFast])

/-- While a triggered static-car-crash run keeps the ego inside the
trigger area, each tick just decrements the timer: after j ticks the
state is the start state with timer reduced by j. -/
lemma static_countdown_state (s : StaticCarCrash_1) (obs : ℕ → ℚ × ℚ)
    (htrig : s.triggered = true)
    (hin : ∀ j, is_inside_bounding_box (obs j) s.trigger_area.a s.trigger_area.b = true) :
    ∀ j, j ≤ s.timer → s.run obs j = { s with timer := s.timer - j } := by
  intro j
  induction j with
  | zero => intro _; rfl
  | succ j ih =>
    intro hj
    have hje : j ≤ s.timer := Nat.le_of_succ_le hj
    have hrec := ih hje
    show ((s.run obs j).tick (obs j)).1 = _
    rw [hrec]
    simp only [StaticCarCrash_1.tick, htrig]
    rw [if_pos trivial, if_pos (hin j)]
    rw [if_pos (by omega : s.timer - j > 0)]
    simp only [Nat.sub_sub]

/-- Claim C6: timer countdown determinism for the two cited timer-gated
scenarios.  Static car crash: from any triggered state whose timer holds
T, with the ego inside the trigger area on every tick, the next T ticks
return 0 and tick number T (counting the first countdown tick as 0)
returns 1, with the fail outcome.  Dangerous excavator: from any
triggered state with the swing checkpoint done and the top yaw at or past
130 on every tick, the next T ticks return 0 and tick number T returns 1. -/
theorem claim6_timeout_determinism :
    (∀ (s : StaticCarCrash_1) (obs : ℕ → ℚ × ℚ), s.triggered = true →
      (∀ j, is_inside_bounding_box (obs j) s.trigger_area.a s.trigger_area.b = true) →
      ((∀ j, j < s.timer → StaticCarCrash_1.out s obs j = .running) ∧
        StaticCarCrash_1.out s obs s.timer = .failed)) ∧
    (∀ (s : DangerousExcavator) (obs : ℕ → ExcavatorObs), s.triggered = true →
      s.checkpoint = true → (∀ j, ¬ (obs j).yaw < 130) →
      ((∀ j, j < s.timer → DangerousExcavator.out s obs j = .running) ∧
        DangerousExcavator.out s obs s.timer = .done)) := by
  constructor
  · intro s obs htrig hin
    constructor
    · intro j hj
      have hst := static_countdown_state s obs htrig hin j (Nat.le_of_lt hj)
      unfold StaticCarCrash_1.out
      rw [hst]
      simp only [StaticCarCrash_1.tick, htrig]
      rw [if_pos trivial, if_pos (hin j), if_pos (by omega : s.timer - j > 0)]
    · have hst := static_countdown_state s obs htrig hin s.timer le_rfl
      unfold StaticCarCrash_1.out
      rw [hst]
      simp only [StaticCarCrash_1.tick, htrig]
      rw [if_pos trivial, if_pos (hin s.timer)]
      rw [if_neg (by omega : ¬ s.timer - s.timer > 0)]
  · intro s obs htrig hcp hyaw
    have hstate : ∀ j, j ≤ s.timer → s.run obs j = { s with timer := s.timer - j } := by
      intro j
      induction j with
      | zero => intro _; rfl
      | succ j ih =>
        intro hj
        have hrec := ih (Nat.le_of_succ_le hj)
        show ((s.run obs j).tick (obs j)).1 = _
        rw [hrec]
        simp only [DangerousExcavator.tick, htrig, hcp]
        rw [if_pos trivial, if_neg (by simp), if_neg (by simp [hyaw j])]
        rw [if_pos (by omega : s.timer - j > 0)]
        simp only [Nat.sub_sub]
    constructor
    · intro j hj
      have hst := hstate j (Nat.le_of_lt hj)
      unfold DangerousExcavator.out
      rw [hst]
      simp only [DangerousExcavator.tick, htrig, hcp]
      rw [if_pos trivial, if_neg (by simp), if_neg (by simp [hyaw j])]
      rw [if_pos (by omega : s.timer - j > 0)]
    · have hst := hstate s.timer le_rfl
      unfold DangerousExcavator.out
      rw [hst]
      simp only [DangerousExcavator.tick, htrig, hcp]
      rw [if_pos trivial, if_neg (by simp), if_neg (by simp [hyaw s.timer])]
      rw [if_neg (by omega : ¬ s.timer - s.timer > 0)]

/-- Claim C6, witness: a triggered static car crash state with timer 2
and the ego always inside returns 0 on ticks 0 and 1 and 1 (fail) on
tick 2. -/
theorem claim6_witness :
    StaticCarCrash_1.out { StaticCarCrash_1.mkInit none with triggered := true, timer := 2 }
        staticObsIn 0 = .running ∧
    StaticCarCrash_1.out { StaticCarCrash_1.mkInit none with triggered := true, timer := 2 }
        staticObsIn 2 = .failed := by
  have h := claim6_timeout_determinism.1
    { StaticCarCrash_1.mkInit none with triggered := true, timer := 2 } staticObsIn rfl
    (fun j => by norm_num [StaticCarCrash_1.mkInit, is_inside_bounding_box, staticObsIn])
  exact ⟨h.1 0 (by norm_num), h.2⟩

/-- Claim C7, counterexample: a triggered parking-HGV tick with no
collision, the ego inside the trigger area, the timer still at its full
400, and the ego stalled at speed 0 completes with the fail outcome —
the timer has not expired, refuting that failure happens only on timer
expiry while inside. -/
theorem claim7_counterexample :
    parkingObsStall.collision_detected = false ∧
    is_inside_bounding_box parkingObsStall.ego_location
        ({ ParkingHGV.mkInit none with triggered := true } : ParkingHGV).trigger_area.a
        ({ ParkingHGV.mkInit none with triggered := true } : ParkingHGV).trigger_area.b
        = true ∧
    ({ ParkingHGV.mkInit none with triggered := true } : ParkingHGV).timer = 400 ∧
    (({ ParkingHGV.mkInit none with triggered := true } : ParkingHGV).tick
        parkingObsStall).2 = .failed := by
  refine ⟨rfl, by norm_num [ParkingHGV.mkInit, is_inside_bounding_box, parkingObsStall],
    rfl, ?_⟩
  norm_num [ParkingHGV.tick, ParkingHGV.mkInit, is_inside_bounding_box, parkingObsStall]

/-- Claim C7, amended: on a triggered tick of the static car crash
scenario, the pass outcome occurs exactly when the ego is outside the
trigger area and the fail outcome exactly when the ego is inside with the
timer expired — the claim as stated.  On a triggered tick of the
parking-HGV scenario, pass occurs exactly when no collision is flagged
and the ego is outside, and fail exactly when a collision is flagged, or
the ego is inside and the timer has expired or the ego speed is at most
0.1 (the stall condition the claim omits). -/
theorem claim7_outcome_characterization :
    (∀ (s : StaticCarCrash_1) (o : ℚ × ℚ), s.triggered = true →
      (((s.tick o).2 = .passed ↔
          is_inside_bounding_box o s.trigger_area.a s.trigger_area.b = false) ∧
       ((s.tick o).2 = .failed ↔
          is_inside_bounding_box o s.trigger_area.a s.trigger_area.b = true ∧
          s.timer = 0))) ∧
    (∀ (s : ParkingHGV) (o : ParkingObs), s.triggered = true →
      (((s.tick o).2 = .passed ↔
          o.collision_detected = false ∧
          is_inside_bounding_box o.ego_location s.trigger_area.a s.trigger_area.b
            = false) ∧
       ((s.tick o).2 = .failed ↔
          o.collision_detected = true ∨
          (is_inside_bounding_box o.ego_location s.trigger_area.a s.trigger_area.b
              = true ∧
            (s.timer = 0 ∨ o.ego_speed ≤ 0.1))))) := by
  constructor
  · intro s o h
    simp only [StaticCarCrash_1.tick, h]
    rw [if_pos trivial]
    split_ifs with h1 h2 <;>
      simp_all [not_and_or, Nat.not_lt, Nat.le_zero, Nat.pos_iff_ne_zero]
  · intro s o h
    simp only [ParkingHGV.tick, h]
    rw [if_pos trivial]
    split_ifs with h1 h2 h3 <;>
      simp_all [not_and_or, Nat.not_lt, Nat.le_zero, Nat.pos_iff_ne_zero, not_lt] <;> tauto

/-- Claim C7, witness: a triggered static car crash tick with the ego
outside the area completes with the pass outcome. -/
theorem claim7_witness :
    (({ StaticCarCrash_1.mkInit none with triggered := true } : StaticCarCrash_1).tick
        (0, 0)).2 = .passed :=
  ((claim7_outcome_characterization.1
      { StaticCarCrash_1.mkInit none with triggered := true } (0, 0) rfl).1).mpr
    (by norm_num [StaticCarCrash_1.mkInit, is_inside_bounding_box])

/-- One parking-HGV tick: set checkpoints stay set, and the second
checkpoint can only be newly set on a tick whose start state already has
the first one set. -/
lemma parking_tick_cp_step (s : ParkingHGV) (o : ParkingObs) :
    (s.checkpoint0 = true → (s.tick o).1.checkpoint0 = true) ∧
    (s.checkpoint1 = true → (s.tick o).1.checkpoint1 = true) ∧
    ((s.tick o).1.checkpoint1 = true → s.checkpoint1 = true ∨ s.checkpoint0 = true) := by
  simp only [ParkingHGV.tick]
  split_ifs <;> simp_all

/-- Along any parking-HGV run from the constructed state, the second
checkpoint is only ever set while the first one is set. -/
lemma parking_run_cp1_imp_cp0 (tp : Option TriggerPoints) (obs : ℕ → ParkingObs) :
    ∀ n, ((ParkingHGV.mkInit tp).run obs n).checkpoint1 = true →
      ((ParkingHGV.mkInit tp).run obs n).checkpoint0 = true := by
  intro n
  induction n with
  | zero => intro h; simp [ParkingHGV.run, ParkingHGV.mkInit] at h
  | succ n ih =>
    intro h
    have step := parking_tick_cp_step ((ParkingHGV.mkInit tp).run obs n) (obs n)
    rcases step.2.2 h with h1 | h0
    · exact step.1 (ih h1)
    · exact step.1 h0

/-- Set checkpoints stay set along a parking-HGV run. -/
lemma parking_run_cp_mono (tp : Option TriggerPoints) (obs : ℕ → ParkingObs)
    (n m : ℕ) (hnm : n ≤ m) :
    (((ParkingHGV.mkInit tp).run obs n).checkpoint0 = true →
      ((ParkingHGV.mkInit tp).run obs m).checkpoint0 = true) ∧
    (((ParkingHGV.mkInit tp).run obs n).checkpoint1 = true →
      ((ParkingHGV.mkInit tp).run obs m).checkpoint1 = true) := by
  induction m, hnm using Nat.le_induction with
  | base => exact ⟨id, id⟩
  | succ m _ ih =>
    have step := parking_tick_cp_step ((ParkingHGV.mkInit tp).run obs m) (obs m)
    exact ⟨fun h => step.1 (ih.1 h), fun h => step.2.1 (ih.2 h)⟩

/-- Claim C8: along every run of the parking-HGV scenario from its
constructed state, checkpoints are never reset, the second checkpoint is
true only while the first is, and on any tick on which the second
checkpoint becomes true the first was already true on the previous tick
boundary — checkpoint 1 can only flip on or after the tick checkpoint 0
flipped. -/
theorem claim8_checkpoint_monotonicity :
    ∀ (tp : Option TriggerPoints) (obs : ℕ → ParkingObs) (n m : ℕ), n ≤ m →
      ((((ParkingHGV.mkInit tp).run obs n).checkpoint0 = true →
          ((ParkingHGV.mkInit tp).run obs m).checkpoint0 = true) ∧
       (((ParkingHGV.mkInit tp).run obs n).checkpoint1 = true →
          ((ParkingHGV.mkInit tp).run obs m).checkpoint1 = true) ∧
       (((ParkingHGV.mkInit tp).run obs n).checkpoint1 = true →
          ((ParkingHGV.mkInit tp).run obs n).checkpoint0 = true) ∧
       (((ParkingHGV.mkInit tp).run obs (n + 1)).checkpoint1 = true →
          ((ParkingHGV.mkInit tp).run obs n).checkpoint1 = false →
          ((ParkingHGV.mkInit tp).run obs n).checkpoint0 = true)) := by
  intro tp obs n m hnm
  refine ⟨(parking_run_cp_mono tp obs n m hnm).1, (parking_run_cp_mono tp obs n m hnm).2,
    parking_run_cp1_imp_cp0 tp obs n, fun h1 h0 => ?_⟩
  have step := parking_tick_cp_step ((ParkingHGV.mkInit tp).run obs n) (obs n)
  rcases step.2.2 h1 with h | h
  · exact absurd h (by simp [h0])
  · exact h

/-- Claim C8, witness: in a run that triggers on tick 0 and moves the HGV
past the backwards threshold on tick 1, the first checkpoint is set from
tick 2 on and is still set on tick 3. -/
theorem claim8_witness :
    ((ParkingHGV.mkInit none).run parkingObsSeq 3).checkpoint0 = true :=
  (claim8_checkpoint_monotonicity none parkingObsSeq 2 3 (by norm_num)).1
    (by norm_num [ParkingHGV.run, ParkingHGV.tick, ParkingHGV.mkInit,
      is_inside_bounding_box, parkingObsSeq])

/-- A car speed that fails the under-0.1 test is nonzero. -/
lemma crs_speed_ne (v : Vec3)
    (h : ¬ Real.sqrt (v.x ^ 2 + v.y ^ 2 + v.z ^ 2) < 0.1) :
    Real.sqrt (v.x ^ 2 + v.y ^ 2 + v.z ^ 2) ≠ 0 := by
  intro h0
  rw [h0] at h
  norm_num at h

/-- The solver's effectively-stopped branch: car speed under 0.1 returns
the speed 0. -/
lemma crs_stopped (c v p d : Vec3)
    (h : Real.sqrt (v.x ^ 2 + v.y ^ 2 + v.z ^ 2) < 0.1) :
    calculate_required_speed c v p d = some 0 := by
  simp only [calculate_required_speed]
  rw [if_pos h]

/-- The solver's x-travel branch when the perpendicular offset is
nonzero: the division succeeds and yields the spec formula. -/
lemma crs_xdir (c v p d : Vec3)
    (h : ¬ Real.sqrt (v.x ^ 2 + v.y ^ 2 + v.z ^ 2) < 0.1)
    (hd : d.x ≠ 0) (hy : c.y - p.y ≠ 0) :
    calculate_required_speed c v p d
      = some (|c.x - p.x| /
          (|c.y - p.y| / Real.sqrt (v.x ^ 2 + v.y ^ 2 + v.z ^ 2))) := by
  have ht : |c.y - p.y| / Real.sqrt (v.x ^ 2 + v.y ^ 2 + v.z ^ 2) ≠ 0 :=
    div_ne_zero (abs_ne_zero.mpr hy) (crs_speed_ne v h)
  simp only [calculate_required_speed]
  rw [if_neg h, if_pos hd, if_neg ht]

/-- The solver's y-travel branch when the perpendicular offset is
nonzero. -/
lemma crs_ydir (c v p d : Vec3)
    (h : ¬ Real.sqrt (v.x ^ 2 + v.y ^ 2 + v.z ^ 2) < 0.1)
    (hd : d.x = 0) (hx : c.x - p.x ≠ 0) :
    calculate_required_speed c v p d
      = some (|c.y - p.y| /
          (|c.x - p.x| / Real.sqrt (v.x ^ 2 + v.y ^ 2 + v.z ^ 2))) := by
  have ht : |c.x - p.x| / Real.sqrt (v.x ^ 2 + v.y ^ 2 + v.z ^ 2) ≠ 0 :=
    div_ne_zero (abs_ne_zero.mpr hx) (crs_speed_ne v h)
  simp only [calculate_required_speed]
  rw [if_neg h, if_neg (by simp [hd]), if_neg ht]

/-- The solver's x-travel branch when the perpendicular offset is zero:
time_to_intersect is 0 and the final division raises, modelled none. -/
lemma crs_xdir_none (c v p d : Vec3)
    (h : ¬ Real.sqrt (v.x ^ 2 + v.y ^ 2 + v.z ^ 2) < 0.1)
    (hd : d.x ≠ 0) (hy : c.y - p.y = 0) :
    calculate_required_speed c v p d = none := by
  simp only [calculate_required_speed]
  rw [if_neg h, if_pos hd, if_pos (by rw [hy]; simp)]

/-- The solver's y-travel branch when the perpendicular offset is zero. -/
lemma crs_ydir_none (c v p d : Vec3)
    (h : ¬ Real.sqrt (v.x ^ 2 + v.y ^ 2 + v.z ^ 2) < 0.1)
    (hd : d.x = 0) (hx : c.x - p.x = 0) :
    calculate_required_speed c v p d = none := by
  simp only [calculate_required_speed]
  rw [if_neg h, if_neg (by simp [hd]), if_pos (by rw [hx]; simp)]

/-- Claim C3, counterexample: the claim quantifies over every input, but
with the car at x 2 moving at velocity of norm 5, the pedestrian also at
x 2 travelling along y, the offset along the non-travel axis x is zero,
so time_to_intersect is 0 and the final division raises a
ZeroDivisionError: no value at all is returned. -/
theorem claim3_counterexample :
    calculate_required_speed ⟨2, 0, 0⟩ ⟨0, 3, 4⟩ ⟨2, 9, 0⟩ ⟨0, -1, 0⟩ = none ∧
    ∀ r : ℝ, calculate_required_speed ⟨2, 0, 0⟩ ⟨0, 3, 4⟩ ⟨2, 9, 0⟩ ⟨0, -1, 0⟩
      ≠ some r := by
  have h5 : Real.sqrt ((0 : ℝ) ^ 2 + 3 ^ 2 + 4 ^ 2) = 5 := by
    rw [show ((0 : ℝ) ^ 2 + 3 ^ 2 + 4 ^ 2) = 5 ^ 2 by norm_num]
    exact Real.sqrt_sq (by norm_num)
  have hmain : calculate_required_speed ⟨2, 0, 0⟩ ⟨0, 3, 4⟩ ⟨2, 9, 0⟩ ⟨0, -1, 0⟩
      = none := by
    refine crs_ydir_none _ _ _ _ ?_ rfl (by norm_num)
    rw [h5]
    norm_num
  exact ⟨hmain, fun r => by rw [hmain]; exact fun hc => Option.noConfusion hc⟩

/-- Claim C3, amended: if the car speed (Euclidean norm of the velocity)
is under 0.1 the solver returns 0; otherwise, provided the absolute
offset between car and pedestrian along the non-travel axis is nonzero,
it returns the absolute offset along the travel axis divided by that
perpendicular offset divided by the car speed, the travel axis being x
when the direction's x component is nonzero and y otherwise; when that
perpendicular offset is zero the division raises a ZeroDivisionError and
nothing is returned. -/
theorem claim3_solver_formula (c v p d : Vec3) :
    (Real.sqrt (v.x ^ 2 + v.y ^ 2 + v.z ^ 2) < 0.1 →
      calculate_required_speed c v p d = some 0) ∧
    (¬ Real.sqrt (v.x ^ 2 + v.y ^ 2 + v.z ^ 2) < 0.1 → d.x ≠ 0 →
      c.y - p.y ≠ 0 →
      calculate_required_speed c v p d
        = some (|c.x - p.x| /
            (|c.y - p.y| / Real.sqrt (v.x ^ 2 + v.y ^ 2 + v.z ^ 2)))) ∧
    (¬ Real.sqrt (v.x ^ 2 + v.y ^ 2 + v.z ^ 2) < 0.1 → d.x = 0 →
      c.x - p.x ≠ 0 →
      calculate_required_speed c v p d
        = some (|c.y - p.y| /
            (|c.x - p.x| / Real.sqrt (v.x ^ 2 + v.y ^ 2 + v.z ^ 2)))) :=
  ⟨crs_stopped c v p d, crs_xdir c v p d, crs_ydir c v p d⟩

/-- Claim C3, witness: car at the origin with velocity of norm 5,
pedestrian at x 6, y 8, moving along x: the solver returns
6 / (8 / 5). -/
theorem claim3_witness :
    calculate_required_speed ⟨6, 8, 0⟩ ⟨3, 4, 0⟩ ⟨0, 0, 0⟩ ⟨1, 0, 0⟩
      = some (6 / (8 / 5)) := by
  have h5 : Real.sqrt ((3 : ℝ) ^ 2 + 4 ^ 2 + 0 ^ 2) = 5 := by
    rw [show ((3 : ℝ) ^ 2 + 4 ^ 2 + 0 ^ 2) = 5 ^ 2 by norm_num]
    exact Real.sqrt_sq (by norm_num)
  have h := (claim3_solver_formula ⟨6, 8, 0⟩ ⟨3, 4, 0⟩ ⟨0, 0, 0⟩ ⟨1, 0, 0⟩).2.1
    (by rw [h5]; norm_num) (by norm_num) (by norm_num)
  rw [h, h5]
  norm_num [abs_of_nonneg]

/-- Claim C10: the crash the spec rules out does exist.  With the car at
the origin moving along x at unit speed and the pedestrian at x 3 on the
car's own line y 0, also travelling along x, the perpendicular offset is
zero, time_to_intersect is 0, and the final division of
calculate_required_speed raises a ZeroDivisionError (modelled none): a
pursuit tick can divide by zero. -/
theorem claim10_division_by_zero :
    calculate_required_speed ⟨0, 0, 0⟩ ⟨1, 0, 0⟩ ⟨3, 0, 0⟩ ⟨1, 0, 0⟩ = none := by
  have h1 : Real.sqrt ((1 : ℝ) ^ 2 + 0 ^ 2 + 0 ^ 2) = 1 := by
    rw [show ((1 : ℝ) ^ 2 + 0 ^ 2 + 0 ^ 2) = 1 by norm_num, Real.sqrt_one]
  refine crs_xdir_none _ _ _ _ ?_ (by norm_num) (by norm_num)
  rw [h1]
  norm_num

/-- adjust_pedestrian_velocity unfolded: the solver output at the
bumper-adjusted car location, clamped from below at 0.1. -/
lemma apv_eq (c f v p d : Vec3) :
    adjust_pedestrian_velocity c f v p d
      = (calculate_required_speed (adjust_car_location c f 2) v p d).map
          (fun required_speed => if required_speed < 0.1 then 0.1 else required_speed) :=
  rfl

/-- Claim C4, counterexample: with the ego stopped (zero velocity) the
solver returns 0, but adjust_pedestrian_velocity clamps unconditionally,
so the commanded walker speed is 0.1, not the claimed 0. -/
theorem claim4_counterexample :
    adjust_pedestrian_velocity ⟨0, 0, 0⟩ ⟨1, 0, 0⟩ ⟨0, 0, 0⟩ ⟨5, 5, 0⟩ ⟨1, 0, 0⟩
      = some 0.1 ∧ (0.1 : ℝ) ≠ 0 := by
  constructor
  · rw [apv_eq, crs_stopped _ ⟨0, 0, 0⟩ _ _ (by norm_num [Real.sqrt_zero])]
    show some (if (0 : ℝ) < 0.1 then (0.1 : ℝ) else 0) = some 0.1
    rw [if_pos (by norm_num)]
  · norm_num

/-- Claim C4, amended: the commanded pursuit speed is the solver output
clamped unconditionally from below at 0.1: for an effectively stopped ego
(speed under 0.1) the solver returns 0 and the commanded speed is 0.1 —
not 0 — and whenever the solver output is below 0.1 the commanded speed
is exactly 0.1, otherwise the solver output unchanged. -/
theorem claim4_commanded_speed (c f v p d : Vec3) :
    (Real.sqrt (v.x ^ 2 + v.y ^ 2 + v.z ^ 2) < 0.1 →
      adjust_pedestrian_velocity c f v p d = some 0.1) ∧
    (∀ r : ℝ, calculate_required_speed (adjust_car_location c f 2) v p d = some r →
      r < 0.1 → adjust_pedestrian_velocity c f v p d = some 0.1) ∧
    (∀ r : ℝ, calculate_required_speed (adjust_car_location c f 2) v p d = some r →
      ¬ r < 0.1 → adjust_pedestrian_velocity c f v p d = some r) := by
  refine ⟨fun h => ?_, fun r hr hlt => ?_, fun r hr hge => ?_⟩
  · rw [apv_eq, crs_stopped _ _ _ _ h]
    show some (if (0 : ℝ) < 0.1 then (0.1 : ℝ) else 0) = some 0.1
    rw [if_pos (by norm_num)]
  · rw [apv_eq, hr]
    show some (if r < (0.1 : ℝ) then (0.1 : ℝ) else r) = some 0.1
    rw [if_pos hlt]
  · rw [apv_eq, hr]
    show some (if r < (0.1 : ℝ) then (0.1 : ℝ) else r) = some r
    rw [if_neg hge]

/-- Claim C4, witness: the unconditional clamp evaluated through the
amended theorem on a stopped ego with a different pedestrian pose. -/
theorem claim4_witness :
    adjust_pedestrian_velocity ⟨7, 2, 0⟩ ⟨0, 1, 0⟩ ⟨0, 0, 0⟩ ⟨4, 9, 0⟩ ⟨0, 1, 0⟩
      = some 0.1 :=
  (claim4_commanded_speed ⟨7, 2, 0⟩ ⟨0, 1, 0⟩ ⟨0, 0, 0⟩ ⟨4, 9, 0⟩ ⟨0, 1, 0⟩).1
    (by norm_num [Real.sqrt_zero])

end CSim
